import Mathlib

/-!
Shallow embedding of the RobotClient resource-discovery and lifecycle
manager of viam/robot/client.py, together with the collaborators it
uses (ResourceName, ResourceManager, the Resource Registry).

Network effects are made explicit: the discovery RPC's result is passed
to `RobotClient.refresh` as an argument (a plain list on success, an
`Except` for the fallible construction paths).  The asyncio event loop
is modelled as a list of named tasks, and Python list-object identity
(needed for the defensive-copy property of the `resource_names`
accessor) is modelled by a small heap of list objects addressed by
numeric ids.  Manager-instance identity is tracked by a generation
counter: every `ResourceManager()` allocation in `refresh` consumes a
fresh generation, and `managerGen` records the generation of the
currently installed manager.
-/

set_option autoImplicit false

/-- ResourceName record produced by the discovery RPC: `type`
(for example "component" or "service"), `subtype` (for example "arm"),
and the user-assigned instance `name`.  Equality is structural. -/
structure ResourceName where
  type : String
  subtype : String
  name : String
deriving DecidableEq

/-- Client proxy bound to a resource's name and the shared channel
(channels are modelled by numeric ids). -/
structure ClientProxy where
  name : String
  subtype : String
  channel : Nat
deriving DecidableEq

/-- Modelled from the spec: the Resource Registry's factory registered
for one subtype ("a process-wide mapping from a resource subtype
identifier to a factory"); the factory's own subtype identifies its
registry key.  The registry itself (viam/registry.py) is not under
src/. -/
structure Factory where
  subtype : String
deriving DecidableEq

/-- Modelled from the spec: `Factory.create_client(name, channel) ->
ClientProxy`, a typed client proxy bound to a channel and a name. -/
def Factory.create_rpc_client (f : Factory) (name : String) (channel : Nat) : ClientProxy :=
  ⟨name, f.subtype, channel⟩

/-- Modelled from the spec: `Registry.lookup(subtype)` returns the
factory registered for the subtype; the not-found condition
(ComponentNotFoundError in the source) is modelled as `none`. -/
def Registry.lookup (reg : List Factory) (st : String) : Option Factory :=
  reg.find? (fun f => f.subtype == st)

/-- Modelled from the spec: the Resource Manager "owns a mapping from
resource name (string) to an opaque typed client-proxy handle"
(viam/components/resource_manager.py is not under src/).  The mapping
is an association list with distinct keys. -/
structure ResourceManager where
  components : List (String × ClientProxy)
deriving DecidableEq

/-- Modelled from the spec: register a proxy into the manager's mapping
under the proxy's name (insert, or overwrite an existing binding). -/
def ResourceManager.register (m : ResourceManager) (p : ClientProxy) : ResourceManager :=
  if m.components.any (fun e => e.1 == p.name) then
    ⟨m.components.map (fun e => if e.1 == p.name then (p.name, p) else e)⟩
  else ⟨m.components ++ [(p.name, p)]⟩

/-- Errors raised by the RobotClient accessors: ViamError for a
resource name that does not describe a component,
ComponentNotFoundError, and ServiceNotImplementedError. -/
inductive ViamErr where
  | viamError (rname : ResourceName)
  | componentNotFound (name : String)
  | serviceNotImplemented (name : String)
deriving DecidableEq

/-- Transport or serialization failures of the discovery RPC. -/
inductive RpcError where
  | network (msg : String)
  | malformed (msg : String)
deriving DecidableEq

/-- Modelled from the spec: the manager "looks up the proxy by name;
fails with a not-found error if absent". -/
def ResourceManager.get_component (m : ResourceManager) (name : String) :
    Except ViamErr ClientProxy :=
  match m.components.find? (fun e => e.1 == name) with
  | some e => Except.ok e.2
  | none => Except.error (ViamErr.componentNotFound name)

/-- Modelled from the spec: comparison of the component sets of two
managers (Python compares the two dicts, which is order-insensitive
equality of key-value bindings). -/
def ResourceManager.sameComponents (m1 m2 : ResourceManager) : Bool :=
  m1.components.all (fun e => m2.components.any (fun e2 => e2 == e)) &&
  m2.components.all (fun e => m1.components.any (fun e2 => e2 == e))

/-- State of a RobotClient.  `managerGen` is the generation (identity
tag) of the installed manager and `nextGen` the next unused generation,
so a refresh that keeps `managerGen` kept the same manager instance.
`lockCount` counts acquisitions of the manager lock. -/
structure RobotClient where
  channel : Nat
  manager : ResourceManager
  managerGen : Nat
  nextGen : Nat
  resource_names : List ResourceName
  should_close_channel : Bool
  lockCount : Nat
  lockHeld : Bool
  channelClosed : Bool
  refreshTaskRunning : Bool
  clientId : Nat
deriving DecidableEq

/-- Body of the for-loop of `refresh` (client.py lines 121-130): walk
the discovered names; skip a name whose type is not "component" or
whose subtype is "remote"; look up the subtype's factory and register
`create_rpc_client(rname.name, channel)` into the manager; when no
factory is registered, append the warning text and continue.  Returns
the built manager and the warnings logged. -/
def buildInto (reg : List Factory) (chan : Nat) :
    List ResourceName → ResourceManager → List String → ResourceManager × List String
  | [], m, log => (m, log)
  | rn :: rest, m, log =>
    if rn.type ≠ "component" then buildInto reg chan rest m log
    else if rn.subtype = "remote" then buildInto reg chan rest m log
    else
      match Registry.lookup reg rn.subtype with
      | some f => buildInto reg chan rest (m.register (f.create_rpc_client rn.name chan)) log
      | none =>
        buildInto reg chan rest m
          (log ++ ["Component of type " ++ rn.subtype ++ " is not implemented"])

/-- Manager built by one refresh cycle from the discovered names,
starting from `ResourceManager()`, together with the warnings logged. -/
def buildManager (reg : List Factory) (chan : Nat) (names : List ResourceName) :
    ResourceManager × List String :=
  buildInto reg chan names ⟨[]⟩ []

/-- `RobotClient.refresh` (client.py lines 112-134): compare the
discovered list with the cached one and return unchanged when equal;
otherwise build a new manager, then under the lock record the new name
list and install the new manager exactly when its component dict
differs from the installed manager's. -/
def RobotClient.refresh (s : RobotClient) (reg : List Factory)
    (response : List ResourceName) : RobotClient :=
  if response = s.resource_names then s
  else
    let manager := (buildManager reg s.channel response).1
    let s1 : RobotClient :=
      { s with lockCount := s.lockCount + 1, resource_names := response,
               nextGen := s.nextGen + 1 }
    if ResourceManager.sameComponents manager s.manager then s1
    else { s1 with manager := manager, managerGen := s.nextGen }

/-- Construction options (client.py Options dataclass); dial options
are opaque to this core and omitted. -/
structure Options where
  refresh_interval : Int := 0
deriving DecidableEq

/-- State of a freshly initialized client before the initial refresh
(client.py lines 89-95). -/
def RobotClient.initialState (chan : Nat) (cid : Nat) : RobotClient :=
  { channel := chan, manager := ⟨[]⟩, managerGen := 0, nextGen := 1, resource_names := [],
    should_close_channel := false, lockCount := 0, lockHeld := false, channelClosed := false,
    refreshTaskRunning := false, clientId := cid }

/-- `RobotClient.with_channel` (client.py lines 76-102): initialize
state over the adopted channel, perform the initial refresh (whose RPC
outcome is the `response` argument; a failure propagates), and start
the background refresh task when a positive interval is configured. -/
def RobotClient.with_channel (chan : Nat) (options : Options) (reg : List Factory)
    (response : Except RpcError (List ResourceName)) : Except RpcError RobotClient :=
  match response with
  | Except.error e => Except.error e
  | Except.ok names =>
    let s := RobotClient.refresh (RobotClient.initialState chan 0) reg names
    Except.ok (if options.refresh_interval > 0 then { s with refreshTaskRunning := true } else s)

/-- `RobotClient.at_address` (client.py lines 60-74): dial a channel
(the dial outcome is the `dialResult` argument), delegate to
`with_channel`, and mark the client as owning the channel. -/
def RobotClient.at_address (dialResult : Except RpcError Nat) (options : Options)
    (reg : List Factory) (response : Except RpcError (List ResourceName)) :
    Except RpcError RobotClient :=
  match dialResult with
  | Except.error e => Except.error e
  | Except.ok chan =>
    match RobotClient.with_channel chan options reg response with
    | Except.error e => Except.error e
    | Except.ok robot => Except.ok { robot with should_close_channel := true }

/-- `RobotClient.get_component` (client.py lines 144-197): reject a
name whose type is not "component" with a ViamError, otherwise look the
name up in the current manager under the lock. -/
def RobotClient.get_component (s : RobotClient) (name : ResourceName) :
    Except ViamErr ClientProxy :=
  if name.type ≠ "component" then Except.error (ViamErr.viamError name)
  else s.manager.get_component name.name

/-- Service client constructed by `service_type.with_channel(channel)`;
modelled from the spec as a fresh handle bound to the service type's
identifier and the shared channel. -/
structure Service where
  name : String
  channel : Nat
deriving DecidableEq

/-- `RobotClient.get_service` (client.py lines 199-214): under the
lock, succeed with a freshly constructed service client exactly when
the service type's identifier occurs among the subtypes of cached
resource names whose type is "service". -/
def RobotClient.get_service (s : RobotClient) (serviceTypeName : String) :
    Except ViamErr Service :=
  if serviceTypeName ∈
      (s.resource_names.filter (fun rn => rn.type == "service")).map
        (fun rn => rn.subtype) then
    Except.ok ⟨serviceTypeName, s.channel⟩
  else Except.error (ViamErr.serviceNotImplemented serviceTypeName)

/-- Comparison of a candidate marker against the front of a character
list (structural model of Python's str.startswith). -/
def strStartsAux : List Char → List Char → Bool
  | [], _ => true
  | _ :: _, [] => false
  | a :: as, b :: bs => a == b && strStartsAux as bs

/-- Python's `s.startswith(p)`: the characters of `p` open the
characters of `s`. -/
def strStarts (p s : String) : Bool :=
  strStartsAux p.data s.data

/-- One asyncio task of the event loop: its name, the id of the client
that created it, and whether it has been cancelled. -/
structure TaskT where
  name : String
  owner : Nat
  cancelled : Bool
deriving DecidableEq

/-- Name of the background refresh task created by `with_channel`
(client.py line 100), for a given task-name marker string. -/
def refreshTaskName (pref : String) : String :=
  pref ++ "-robot_refresh_metadata"

/-- `RobotClient.close` (client.py lines 227-247): force-release the
lock (a RuntimeError when it was not held is swallowed), cancel every
task of the event loop whose name starts with the marker string `pref`
(the source's task-name constant, whose defining module is not under
src/), and close the channel only when the client owns it. -/
def RobotClient.close (s : RobotClient) (pref : String) (loop : List TaskT) :
    RobotClient × List TaskT :=
  let s1 := { s with lockHeld := false }
  let loop1 := loop.map (fun t =>
    if strStarts pref t.name then { t with cancelled := true } else t)
  let s2 := if s1.should_close_channel then { s1 with channelClosed := true } else s1
  (s2, loop1)

/-- Heap of Python list objects, addressed by numeric ids (position in
the list); reading an unallocated id yields the empty list. -/
def heapGet : List (List ResourceName) → Nat → List ResourceName
  | [], _ => []
  | c :: _, 0 => c
  | _ :: rest, n + 1 => heapGet rest n

/-- Store new contents into the list object at the given id. -/
def heapSet : List (List ResourceName) → Nat → List ResourceName → List (List ResourceName)
  | [], _, _ => []
  | _ :: rest, 0, v => v :: rest
  | c :: rest, n + 1, v => c :: heapSet rest n v

/-- Embedding of the `resource_names` accessor (client.py lines
216-225) over the list-object heap: the comprehension allocates a fresh
list object (its id is the heap size) holding a copy of the elements of
the cached list object at `ref`, and returns the new object's id. -/
def resource_names_copy (h : List (List ResourceName)) (ref : Nat) :
    List (List ResourceName) × Nat :=
  (h ++ [heapGet h ref], h.length)

/-- a sample registry entry used by concrete witnesses -/
def armFactory : Factory := ⟨"arm"⟩

/-- a sample client state used by concrete witnesses -/
def sampleState : RobotClient := RobotClient.initialState 7 0

/-- a sample resource name used by concrete witnesses -/
def armName : ResourceName := ⟨"component", "arm", "arm1"⟩

/-- C1: a refresh whose discovered list equals (order-sensitively) the
cached list returns immediately with the state unchanged: the same
manager instance stays installed (`managerGen` unchanged), nothing was
rebuilt (`nextGen` unchanged) and the lock was not acquired
(`lockCount` unchanged). -/
theorem refresh_unchanged_list_is_noop (s : RobotClient) (reg : List Factory)
    (response : List ResourceName) (h : response = s.resource_names) :
    RobotClient.refresh s reg response = s ∧
    (RobotClient.refresh s reg response).managerGen = s.managerGen ∧
    (RobotClient.refresh s reg response).nextGen = s.nextGen ∧
    (RobotClient.refresh s reg response).lockCount = s.lockCount := by
  have hr : RobotClient.refresh s reg response = s := by
    simp [RobotClient.refresh, h]
  exact ⟨hr, by rw [hr], by rw [hr], by rw [hr]⟩

/-- Witness for C1 at a concrete state whose cache holds one name. -/
theorem refresh_unchanged_list_is_noop_witness :
    RobotClient.refresh { sampleState with resource_names := [armName] } [armFactory]
        [armName] = { sampleState with resource_names := [armName] } ∧
    (RobotClient.refresh { sampleState with resource_names := [armName] } [armFactory]
        [armName]).managerGen = ({ sampleState with resource_names := [armName] } : RobotClient).managerGen ∧
    (RobotClient.refresh { sampleState with resource_names := [armName] } [armFactory]
        [armName]).nextGen = ({ sampleState with resource_names := [armName] } : RobotClient).nextGen ∧
    (RobotClient.refresh { sampleState with resource_names := [armName] } [armFactory]
        [armName]).lockCount = ({ sampleState with resource_names := [armName] } : RobotClient).lockCount :=
  refresh_unchanged_list_is_noop _ _ _ rfl

/-- C4: a failure of the initial discovery refresh propagates
synchronously out of both construction paths; neither returns a
(partial) client. -/
theorem construction_error_propagates (chan : Nat) (options : Options)
    (reg : List Factory) (e : RpcError) :
    RobotClient.with_channel chan options reg (Except.error e) = Except.error e ∧
    RobotClient.at_address (Except.ok chan) options reg (Except.error e) = Except.error e := by
  constructor
  · rfl
  · rfl

/-- C7: `get_component` on a name whose type is not "component" raises
a ViamError, whatever the manager state is. -/
theorem get_component_wrong_type_errors (s : RobotClient) (name : ResourceName)
    (h : name.type ≠ "component") :
    RobotClient.get_component s name = Except.error (ViamErr.viamError name) := by
  simp [RobotClient.get_component, h]

/-- Witness for C7 at a service-typed name. -/
theorem get_component_wrong_type_errors_witness :
    RobotClient.get_component sampleState ⟨"service", "vision", "v1"⟩ =
      Except.error (ViamErr.viamError ⟨"service", "vision", "v1"⟩) :=
  get_component_wrong_type_errors sampleState ⟨"service", "vision", "v1"⟩ (by decide)

/-- C6: `get_service` returns a freshly constructed service client
bound to the shared channel exactly when some cached resource name has
type "service" and subtype equal to the service type's identifier, and
raises ServiceNotImplementedError otherwise. -/
theorem get_service_iff_cached (s : RobotClient) (st : String) :
    (RobotClient.get_service s st = Except.ok ⟨st, s.channel⟩ ↔
      ∃ rn, rn ∈ s.resource_names ∧ rn.type = "service" ∧ rn.subtype = st) ∧
    ((¬ ∃ rn, rn ∈ s.resource_names ∧ rn.type = "service" ∧ rn.subtype = st) →
      RobotClient.get_service s st = Except.error (ViamErr.serviceNotImplemented st)) := by
  have hmem : st ∈
      (s.resource_names.filter (fun rn => rn.type == "service")).map
        (fun rn => rn.subtype) ↔
      ∃ rn, rn ∈ s.resource_names ∧ rn.type = "service" ∧ rn.subtype = st := by
    simp only [List.mem_map, List.mem_filter, beq_iff_eq]
    constructor
    · rintro ⟨rn, ⟨hm, ht⟩, hs⟩
      exact ⟨rn, hm, ht, hs⟩
    · rintro ⟨rn, hm, ht, hs⟩
      exact ⟨rn, ⟨hm, ht⟩, hs⟩
  constructor
  · constructor
    · intro hok
      by_contra hno
      have hnm := (not_iff_not.mpr hmem).mpr hno
      simp [RobotClient.get_service, hnm] at hok
    · intro hex
      have hm := hmem.mpr hex
      simp [RobotClient.get_service, hm]
  · intro hno
    have hnm := (not_iff_not.mpr hmem).mpr hno
    simp [RobotClient.get_service, hnm]

/-- Witness for C6: the success direction at a cached vision service,
and the failure direction at an absent service type. -/
theorem get_service_iff_cached_witness :
    RobotClient.get_service { sampleState with resource_names := [⟨"service", "vision", "v1"⟩] }
        "vision" = Except.ok ⟨"vision", 7⟩ ∧
    RobotClient.get_service { sampleState with resource_names := [⟨"service", "vision", "v1"⟩] }
        "motion" = Except.error (ViamErr.serviceNotImplemented "motion") := by
  constructor
  · exact (get_service_iff_cached
      { sampleState with resource_names := [⟨"service", "vision", "v1"⟩] } "vision").1.mpr
      ⟨⟨"service", "vision", "v1"⟩, by simp, rfl, rfl⟩
  · exact (get_service_iff_cached
      { sampleState with resource_names := [⟨"service", "vision", "v1"⟩] } "motion").2
      (by rintro ⟨rn, hm, ht, hs⟩; simp at hm; rw [hm] at hs; exact absurd hs (by decide))

/-- Selection predicate of the refresh loop: a discovered name gets a
proxy exactly when its type is "component", its subtype is not
"remote", and a factory is registered for the subtype. -/
def qualifies (reg : List Factory) (rn : ResourceName) : Bool :=
  if rn.type ≠ "component" then false
  else if rn.subtype = "remote" then false
  else (Registry.lookup reg rn.subtype).isSome

/-- a component-typed, non-remote name whose subtype has no registered
factory: the refresh loop logs a warning for it and skips it -/
def missingFactory (reg : List Factory) (rn : ResourceName) : Bool :=
  if rn.type ≠ "component" then false
  else if rn.subtype = "remote" then false
  else (Registry.lookup reg rn.subtype).isNone

/-- Registering under a name absent from the mapping appends the
binding. -/
theorem register_fresh (m : ResourceManager) (p : ClientProxy)
    (h : ∀ e ∈ m.components, e.1 ≠ p.name) :
    (m.register p).components = m.components ++ [(p.name, p)] := by
  have hany : m.components.any (fun e => e.1 == p.name) = false := by
    rw [List.any_eq_false]
    intro e he
    simpa using h e he
  simp [ResourceManager.register, hany]

/-- The warnings accumulated by the refresh loop are exactly one
message per discovered component-typed, non-remote name whose subtype
has no registered factory, in order. -/
theorem buildInto_log (reg : List Factory) (chan : Nat) (names : List ResourceName) :
    ∀ (m : ResourceManager) (log : List String),
    (buildInto reg chan names m log).2 =
      log ++ (names.filter (missingFactory reg)).map
        (fun rn => "Component of type " ++ rn.subtype ++ " is not implemented") := by
  induction names with
  | nil => intro m log; simp [buildInto]
  | cons rn rest ih =>
    intro m log
    by_cases h1 : rn.type = "component"
    · by_cases h2 : rn.subtype = "remote"
      · simp [buildInto, h1, h2, missingFactory, List.filter_cons, ih]
      · cases hl : Registry.lookup reg rn.subtype with
        | some f => simp [buildInto, h1, h2, hl, missingFactory, List.filter_cons, ih]
        | none => simp [buildInto, h1, h2, hl, missingFactory, List.filter_cons, ih]
    · simp [buildInto, h1, missingFactory, List.filter_cons, ih]

/-- A factory found by a registry lookup carries the looked-up
subtype. -/
theorem lookup_subtype (reg : List Factory) (st : String) (f : Factory)
    (h : Registry.lookup reg st = some f) : f.subtype = st := by
  have h' : reg.find? (fun g => g.subtype == st) = some f := h
  have hp := List.find?_some h'
  simpa using hp

/-- Components accumulated by the refresh loop: starting from a
mapping whose keys avoid every selected discovered name, and with the
selected names pairwise distinct, the loop appends exactly one proxy
binding per selected name, bound to that name and the shared channel,
in discovery order. -/
theorem buildInto_comp (reg : List Factory) (chan : Nat) (names : List ResourceName) :
    ∀ (m : ResourceManager) (log : List String),
    (∀ e ∈ m.components, e.1 ∉ (names.filter (qualifies reg)).map ResourceName.name) →
    ((names.filter (qualifies reg)).map ResourceName.name).Nodup →
    (buildInto reg chan names m log).1.components =
      m.components ++ (names.filter (qualifies reg)).map
        (fun rn => (rn.name, ClientProxy.mk rn.name rn.subtype chan)) := by
  induction names with
  | nil => intro m log _ _; simp [buildInto]
  | cons rn rest ih =>
    intro m log hfresh hnd
    by_cases h1 : rn.type = "component"
    · by_cases h2 : rn.subtype = "remote"
      · have hq : qualifies reg rn = false := by simp [qualifies, h1, h2]
        have hfil : (rn :: rest).filter (qualifies reg) = rest.filter (qualifies reg) := by
          simp [List.filter_cons, hq]
        rw [hfil] at hfresh hnd
        simpa [buildInto, h1, h2, hfil] using ih m log hfresh hnd
      · cases hl : Registry.lookup reg rn.subtype with
        | some f =>
          have hq : qualifies reg rn = true := by simp [qualifies, h1, h2, hl]
          have hfil : (rn :: rest).filter (qualifies reg) =
              rn :: rest.filter (qualifies reg) := by
            simp [List.filter_cons, hq]
          rw [hfil] at hfresh hnd
          have hsub : f.subtype = rn.subtype := lookup_subtype reg rn.subtype f hl
          have hproxy : f.create_rpc_client rn.name chan =
              ClientProxy.mk rn.name rn.subtype chan := by
            simp [Factory.create_rpc_client, hsub]
          have hfreshm : ∀ e ∈ m.components, e.1 ≠ rn.name := by
            intro e he
            have := hfresh e he
            simp only [List.map_cons, List.mem_cons] at this
            exact fun hc => this (Or.inl hc)
          have hreg : (m.register (f.create_rpc_client rn.name chan)).components =
              m.components ++ [(rn.name, ClientProxy.mk rn.name rn.subtype chan)] := by
            rw [hproxy]
            exact register_fresh m _ hfreshm
          have hnotin : rn.name ∉ (rest.filter (qualifies reg)).map ResourceName.name := by
            simp only [List.map_cons, List.nodup_cons] at hnd
            exact hnd.1
          have hfresh' : ∀ e ∈ (m.register (f.create_rpc_client rn.name chan)).components,
              e.1 ∉ (rest.filter (qualifies reg)).map ResourceName.name := by
            intro e he
            rw [hreg] at he
            rcases List.mem_append.mp he with hm | hm
            · intro hc
              have := hfresh e hm
              simp only [List.map_cons, List.mem_cons] at this
              exact this (Or.inr hc)
            · simp only [List.mem_singleton] at hm
              rw [hm]
              exact hnotin
          have hnd' : ((rest.filter (qualifies reg)).map ResourceName.name).Nodup := by
            simp only [List.map_cons, List.nodup_cons] at hnd
            exact hnd.2
          have hstep : buildInto reg chan (rn :: rest) m log =
              buildInto reg chan rest (m.register (f.create_rpc_client rn.name chan)) log := by
            simp [buildInto, h1, h2, hl]
          rw [hstep, ih _ log hfresh' hnd', hreg, hfil]
          simp
        | none =>
          have hq : qualifies reg rn = false := by simp [qualifies, h1, h2, hl]
          have hfil : (rn :: rest).filter (qualifies reg) = rest.filter (qualifies reg) := by
            simp [List.filter_cons, hq]
          rw [hfil] at hfresh hnd
          have hstep : buildInto reg chan (rn :: rest) m log =
              buildInto reg chan rest m
                (log ++ ["Component of type " ++ rn.subtype ++ " is not implemented"]) := by
            simp [buildInto, h1, h2, hl]
          rw [hstep, ih _ _ hfresh hnd, hfil]
    · have hq : qualifies reg rn = false := by simp [qualifies, h1]
      have hfil : (rn :: rest).filter (qualifies reg) = rest.filter (qualifies reg) := by
        simp [List.filter_cons, hq]
      rw [hfil] at hfresh hnd
      simpa [buildInto, h1, hfil] using ih m log hfresh hnd

/-- C2: when the selected discovered names are pairwise distinct, the
manager built by a refresh cycle contains a client proxy (bound to the
resource's name and the shared channel) exactly for each discovered
name whose type is "component", whose subtype is not "remote", and
whose subtype has a registered factory; every component-typed,
non-remote name without a factory produces exactly one warning and is
skipped without aborting the loop, and "remote"-subtyped components
are excluded regardless of factory availability (they are filtered out
before any registry lookup). -/
theorem buildManager_components_exact (reg : List Factory) (chan : Nat)
    (names : List ResourceName)
    (hnd : ((names.filter (qualifies reg)).map ResourceName.name).Nodup) :
    (buildManager reg chan names).1.components =
      (names.filter (qualifies reg)).map
        (fun rn => (rn.name, ClientProxy.mk rn.name rn.subtype chan)) ∧
    (buildManager reg chan names).2 =
      (names.filter (missingFactory reg)).map
        (fun rn => "Component of type " ++ rn.subtype ++ " is not implemented") := by
  constructor
  · have := buildInto_comp reg chan names ⟨[]⟩ [] (by intro e he; simp at he) hnd
    simpa [buildManager] using this
  · simpa [buildManager] using buildInto_log reg chan names ⟨[]⟩ []

/-- Witness for C2: a discovery with an arm component (factory
registered), a remote component (factory registered for "remote" as
well, showing the exclusion is unconditional), a gripper component
(no factory) and a vision service. -/
theorem buildManager_components_exact_witness :
    ((([⟨"component", "arm", "arm1"⟩, ⟨"component", "remote", "other-robot"⟩,
        ⟨"component", "gripper", "g1"⟩, ⟨"service", "vision", "v1"⟩] :
          List ResourceName).filter
        (qualifies [⟨"arm"⟩, ⟨"remote"⟩])).map ResourceName.name).Nodup ∧
    ((buildManager [⟨"arm"⟩, ⟨"remote"⟩] 5
        [⟨"component", "arm", "arm1"⟩, ⟨"component", "remote", "other-robot"⟩,
         ⟨"component", "gripper", "g1"⟩, ⟨"service", "vision", "v1"⟩]).1.components =
      (([⟨"component", "arm", "arm1"⟩, ⟨"component", "remote", "other-robot"⟩,
         ⟨"component", "gripper", "g1"⟩, ⟨"service", "vision", "v1"⟩] :
           List ResourceName).filter (qualifies [⟨"arm"⟩, ⟨"remote"⟩])).map
        (fun rn => (rn.name, ClientProxy.mk rn.name rn.subtype 5)) ∧
    (buildManager [⟨"arm"⟩, ⟨"remote"⟩] 5
        [⟨"component", "arm", "arm1"⟩, ⟨"component", "remote", "other-robot"⟩,
         ⟨"component", "gripper", "g1"⟩, ⟨"service", "vision", "v1"⟩]).2 =
      (([⟨"component", "arm", "arm1"⟩, ⟨"component", "remote", "other-robot"⟩,
         ⟨"component", "gripper", "g1"⟩, ⟨"service", "vision", "v1"⟩] :
           List ResourceName).filter (missingFactory [⟨"arm"⟩, ⟨"remote"⟩])).map
        (fun rn => "Component of type " ++ rn.subtype ++ " is not implemented")) :=
  ⟨by decide, buildManager_components_exact [⟨"arm"⟩, ⟨"remote"⟩] 5
    [⟨"component", "arm", "arm1"⟩, ⟨"component", "remote", "other-robot"⟩,
     ⟨"component", "gripper", "g1"⟩, ⟨"service", "vision", "v1"⟩] (by decide)⟩

/-- C3: at the end of a refresh cycle that rebuilt (discovered list
differs from the cache), the lock is acquired once, the new name list
is recorded, and the newly built manager is installed (with a fresh
generation) exactly when its component dict differs from the installed
manager's; otherwise the previously installed manager instance stays,
generation included. -/
theorem refresh_changed_installs_iff_differs (s : RobotClient) (reg : List Factory)
    (response : List ResourceName) (h : response ≠ s.resource_names) :
    (RobotClient.refresh s reg response).lockCount = s.lockCount + 1 ∧
    (RobotClient.refresh s reg response).resource_names = response ∧
    (ResourceManager.sameComponents (buildManager reg s.channel response).1 s.manager = false →
      (RobotClient.refresh s reg response).manager = (buildManager reg s.channel response).1 ∧
      (RobotClient.refresh s reg response).managerGen = s.nextGen) ∧
    (ResourceManager.sameComponents (buildManager reg s.channel response).1 s.manager = true →
      (RobotClient.refresh s reg response).manager = s.manager ∧
      (RobotClient.refresh s reg response).managerGen = s.managerGen) := by
  cases hsc : ResourceManager.sameComponents (buildManager reg s.channel response).1 s.manager with
  | false =>
    have hr : RobotClient.refresh s reg response =
        { s with lockCount := s.lockCount + 1, resource_names := response,
                 nextGen := s.nextGen + 1,
                 manager := (buildManager reg s.channel response).1,
                 managerGen := s.nextGen } := by
      simp [RobotClient.refresh, h, hsc]
    rw [hr]
    exact ⟨rfl, rfl, fun _ => ⟨rfl, rfl⟩, fun hc => absurd hc (by decide)⟩
  | true =>
    have hr : RobotClient.refresh s reg response =
        { s with lockCount := s.lockCount + 1, resource_names := response,
                 nextGen := s.nextGen + 1 } := by
      simp [RobotClient.refresh, h, hsc]
    rw [hr]
    exact ⟨rfl, rfl, fun hc => absurd hc (by decide), fun _ => ⟨rfl, rfl⟩⟩

/-- Witness for C3: a refresh from an empty cache discovering one arm
component with a registered factory. -/
theorem refresh_changed_installs_iff_differs_witness :
    (RobotClient.refresh sampleState [armFactory] [armName]).lockCount =
      sampleState.lockCount + 1 ∧
    (RobotClient.refresh sampleState [armFactory] [armName]).resource_names = [armName] ∧
    (ResourceManager.sameComponents (buildManager [armFactory] sampleState.channel [armName]).1
        sampleState.manager = false →
      (RobotClient.refresh sampleState [armFactory] [armName]).manager =
        (buildManager [armFactory] sampleState.channel [armName]).1 ∧
      (RobotClient.refresh sampleState [armFactory] [armName]).managerGen =
        sampleState.nextGen) ∧
    (ResourceManager.sameComponents (buildManager [armFactory] sampleState.channel [armName]).1
        sampleState.manager = true →
      (RobotClient.refresh sampleState [armFactory] [armName]).manager =
        sampleState.manager ∧
      (RobotClient.refresh sampleState [armFactory] [armName]).managerGen =
        sampleState.managerGen) :=
  refresh_changed_installs_iff_differs sampleState [armFactory] [armName] (by decide)

/-- C9: after a refresh whose discovered list differs from the cache
but whose rebuilt manager has the same component dict as the installed
one, the cached name list equals the new discovery while the manager
instance (generation included) is unchanged; hence `get_component` is
served by the previously installed manager and `get_service` answers
from the latest discovery. -/
theorem refresh_updates_names_even_without_swap (s : RobotClient) (reg : List Factory)
    (response : List ResourceName) (h : response ≠ s.resource_names)
    (hsame : ResourceManager.sameComponents (buildManager reg s.channel response).1
      s.manager = true) :
    (RobotClient.refresh s reg response).resource_names = response ∧
    (RobotClient.refresh s reg response).manager = s.manager ∧
    (RobotClient.refresh s reg response).managerGen = s.managerGen ∧
    (∀ nm, RobotClient.get_component (RobotClient.refresh s reg response) nm =
      RobotClient.get_component s nm) ∧
    (∀ st, RobotClient.get_service (RobotClient.refresh s reg response) st =
      RobotClient.get_service { s with resource_names := response } st) := by
  have hr : RobotClient.refresh s reg response =
      { s with lockCount := s.lockCount + 1, resource_names := response,
               nextGen := s.nextGen + 1 } := by
    simp [RobotClient.refresh, h, hsame]
  rw [hr]
  exact ⟨rfl, rfl, rfl, fun nm => rfl, fun st => rfl⟩

/-- Witness for C9: the cache holds a vision service, the new discovery
holds a motion service instead; both build an empty manager, so the
swap is skipped while the name list moves to the new discovery. -/
theorem refresh_updates_names_even_without_swap_witness :
    (RobotClient.refresh { sampleState with resource_names := [⟨"service", "vision", "v1"⟩] }
        [armFactory] [⟨"service", "motion", "m1"⟩]).resource_names =
      [⟨"service", "motion", "m1"⟩] ∧
    (RobotClient.refresh { sampleState with resource_names := [⟨"service", "vision", "v1"⟩] }
        [armFactory] [⟨"service", "motion", "m1"⟩]).manager =
      ({ sampleState with resource_names := [⟨"service", "vision", "v1"⟩] } : RobotClient).manager ∧
    (RobotClient.refresh { sampleState with resource_names := [⟨"service", "vision", "v1"⟩] }
        [armFactory] [⟨"service", "motion", "m1"⟩]).managerGen =
      ({ sampleState with resource_names := [⟨"service", "vision", "v1"⟩] } : RobotClient).managerGen ∧
    (∀ nm, RobotClient.get_component
        (RobotClient.refresh { sampleState with resource_names := [⟨"service", "vision", "v1"⟩] }
          [armFactory] [⟨"service", "motion", "m1"⟩]) nm =
      RobotClient.get_component
        { sampleState with resource_names := [⟨"service", "vision", "v1"⟩] } nm) ∧
    (∀ st, RobotClient.get_service
        (RobotClient.refresh { sampleState with resource_names := [⟨"service", "vision", "v1"⟩] }
          [armFactory] [⟨"service", "motion", "m1"⟩]) st =
      RobotClient.get_service
        { ({ sampleState with resource_names := [⟨"service", "vision", "v1"⟩] } : RobotClient) with
          resource_names := [⟨"service", "motion", "m1"⟩] } st) :=
  refresh_updates_names_even_without_swap
    { sampleState with resource_names := [⟨"service", "vision", "v1"⟩] }
    [armFactory] [⟨"service", "motion", "m1"⟩] (by decide) (by decide)

/-- Refresh never touches channel ownership or channel state. -/
theorem refresh_preserves_channel_flags (s : RobotClient) (reg : List Factory)
    (response : List ResourceName) :
    (RobotClient.refresh s reg response).should_close_channel = s.should_close_channel ∧
    (RobotClient.refresh s reg response).channelClosed = s.channelClosed := by
  by_cases h : response = s.resource_names
  · simp [RobotClient.refresh, h]
  · cases hsc : ResourceManager.sameComponents (buildManager reg s.channel response).1
        s.manager <;>
      simp [RobotClient.refresh, h, hsc]

/-- Close closes the channel exactly when the client owns it (or it was
already closed). -/
theorem close_channelClosed (s : RobotClient) (pref : String) (loop : List TaskT) :
    (RobotClient.close s pref loop).1.channelClosed =
      (s.should_close_channel || s.channelClosed) := by
  by_cases h : s.should_close_channel <;> simp [RobotClient.close, h]

/-- A client built by the adopt path does not own the channel and its
channel is open. -/
theorem with_channel_ok_flags (chan : Nat) (options : Options) (reg : List Factory)
    (resp : Except RpcError (List ResourceName)) (r : RobotClient)
    (h : RobotClient.with_channel chan options reg resp = Except.ok r) :
    r.should_close_channel = false ∧ r.channelClosed = false := by
  cases resp with
  | error e => simp [RobotClient.with_channel] at h
  | ok names =>
    simp only [RobotClient.with_channel, Except.ok.injEq] at h
    have hini := refresh_preserves_channel_flags (RobotClient.initialState chan 0) reg names
    by_cases hi : options.refresh_interval > 0
    · rw [if_pos hi] at h
      rw [← h]
      exact hini
    · rw [if_neg hi] at h
      rw [← h]
      exact hini

/-- A client built by the dial path owns the channel and its channel is
open. -/
theorem at_address_ok_flags (chan : Nat) (options : Options) (reg : List Factory)
    (resp : Except RpcError (List ResourceName)) (r : RobotClient)
    (h : RobotClient.at_address (Except.ok chan) options reg resp = Except.ok r) :
    r.should_close_channel = true ∧ r.channelClosed = false := by
  cases hw : RobotClient.with_channel chan options reg resp with
  | error e => simp [RobotClient.at_address, hw] at h
  | ok robot =>
    simp only [RobotClient.at_address, hw, Except.ok.injEq] at h
    rw [← h]
    exact ⟨rfl, (with_channel_ok_flags chan options reg resp robot hw).2⟩

/-- C5: closing a client constructed via the dial path closes the
transport channel; closing a client constructed via the adopt path over
the same channel, options and discovery leaves the channel open. -/
theorem close_dial_closes_adopt_keeps (chan : Nat) (options : Options) (reg : List Factory)
    (resp : Except RpcError (List ResourceName)) (pref : String) (loop : List TaskT)
    (r1 r2 : RobotClient)
    (h1 : RobotClient.with_channel chan options reg resp = Except.ok r1)
    (h2 : RobotClient.at_address (Except.ok chan) options reg resp = Except.ok r2) :
    (RobotClient.close r1 pref loop).1.channelClosed = false ∧
    (RobotClient.close r2 pref loop).1.channelClosed = true := by
  obtain ⟨ho1, hc1⟩ := with_channel_ok_flags chan options reg resp r1 h1
  obtain ⟨ho2, hc2⟩ := at_address_ok_flags chan options reg resp r2 h2
  constructor
  · simp [close_channelClosed, ho1, hc1]
  · simp [close_channelClosed, ho2]

/-- Witness for C5: both construction paths over channel 3 with an
empty discovery, then close. -/
theorem close_dial_closes_adopt_keeps_witness :
    (RobotClient.close (RobotClient.initialState 3 0) "viam" []).1.channelClosed = false ∧
    (RobotClient.close
        { RobotClient.initialState 3 0 with should_close_channel := true }
        "viam" []).1.channelClosed = true :=
  close_dial_closes_adopt_keeps 3 ⟨0⟩ [] (Except.ok []) "viam" []
    (RobotClient.initialState 3 0)
    { RobotClient.initialState 3 0 with should_close_channel := true }
    rfl rfl

/-- C10: `close` force-releases the manager lock and cancels every task
of the event loop whose name starts with the task-name marker — whoever
its owner is — while tasks without the marker are left untouched. -/
theorem close_cancels_all_viam_tasks (s : RobotClient) (pref : String) (loop : List TaskT) :
    (RobotClient.close s pref loop).1.lockHeld = false ∧
    ∀ t ∈ loop,
      (strStarts pref t.name = true →
        { t with cancelled := true } ∈ (RobotClient.close s pref loop).2) ∧
      (strStarts pref t.name = false → t ∈ (RobotClient.close s pref loop).2) := by
  constructor
  · by_cases h : s.should_close_channel <;> simp [RobotClient.close, h]
  · intro t ht
    have hsnd : (RobotClient.close s pref loop).2 =
        loop.map (fun t => if strStarts pref t.name then { t with cancelled := true } else t) :=
      rfl
    constructor
    · intro hp
      rw [hsnd]
      exact List.mem_map.mpr ⟨t, ht, by simp [hp]⟩
    · intro hp
      rw [hsnd]
      exact List.mem_map.mpr ⟨t, ht, by simp [hp]⟩

/-- Witness for C10: a client (id 0) holding the lock closes while the
loop holds another client's refresh task (owner 1) and an unrelated
user task; the refresh task of client 1 is cancelled, the user task is
not. -/
theorem close_cancels_all_viam_tasks_witness :
    (RobotClient.close { sampleState with lockHeld := true } "viam"
        [⟨refreshTaskName "viam", 1, false⟩, ⟨"user-task", 2, false⟩]).1.lockHeld = false ∧
    (⟨refreshTaskName "viam", 1, true⟩ : TaskT) ∈
      (RobotClient.close { sampleState with lockHeld := true } "viam"
        [⟨refreshTaskName "viam", 1, false⟩, ⟨"user-task", 2, false⟩]).2 ∧
    (⟨"user-task", 2, false⟩ : TaskT) ∈
      (RobotClient.close { sampleState with lockHeld := true } "viam"
        [⟨refreshTaskName "viam", 1, false⟩, ⟨"user-task", 2, false⟩]).2 := by
  obtain ⟨hl, hall⟩ := close_cancels_all_viam_tasks { sampleState with lockHeld := true }
    "viam" [⟨refreshTaskName "viam", 1, false⟩, ⟨"user-task", 2, false⟩]
  refine ⟨hl, ?_, ?_⟩
  · exact (hall ⟨refreshTaskName "viam", 1, false⟩ (by simp)).1 (by decide)
  · exact (hall ⟨"user-task", 2, false⟩ (by simp)).2 (by decide)

/-- Reading below the old size is unaffected by allocating a new list
object at the end of the heap. -/
theorem heapGet_append_lt (c : List ResourceName) :
    ∀ (h : List (List ResourceName)) (j : Nat), j < h.length →
      heapGet (h ++ [c]) j = heapGet h j := by
  intro h
  induction h with
  | nil => intro j hj; simp at hj
  | cons x rest ih =>
    intro j hj
    cases j with
    | zero => rfl
    | succ n => exact ih n (by simpa using hj)

/-- Reading the freshly allocated id at the end of the heap yields the
allocated contents. -/
theorem heapGet_append_self (c : List ResourceName) :
    ∀ h : List (List ResourceName), heapGet (h ++ [c]) h.length = c := by
  intro h
  induction h with
  | nil => rfl
  | cons x rest ih => exact ih

/-- Storing into one list object leaves every other list object
unchanged. -/
theorem heapGet_heapSet_ne (v : List ResourceName) :
    ∀ (h : List (List ResourceName)) (i j : Nat), i ≠ j →
      heapGet (heapSet h i v) j = heapGet h j := by
  intro h
  induction h with
  | nil => intro i j _; rfl
  | cons x rest ih =>
    intro i j hne
    cases i with
    | zero =>
      cases j with
      | zero => exact absurd rfl hne
      | succ n => rfl
    | succ m =>
      cases j with
      | zero => rfl
      | succ n => exact ih m n (fun hc => hne (by rw [hc]))

/-- C8: the `resource_names` accessor allocates a fresh list object
(distinct from the cached one) holding the same elements; storing any
mutation into the returned object leaves the cached list unchanged, so
a subsequent accessor call still copies the original elements. -/
theorem resource_names_returns_fresh_copy (h : List (List ResourceName)) (ref : Nat)
    (hlt : ref < h.length) (nv : List ResourceName) :
    (resource_names_copy h ref).2 ≠ ref ∧
    heapGet (resource_names_copy h ref).1 (resource_names_copy h ref).2 = heapGet h ref ∧
    heapGet (heapSet (resource_names_copy h ref).1 (resource_names_copy h ref).2 nv) ref =
      heapGet h ref ∧
    heapGet
        (resource_names_copy
          (heapSet (resource_names_copy h ref).1 (resource_names_copy h ref).2 nv) ref).1
        (resource_names_copy
          (heapSet (resource_names_copy h ref).1 (resource_names_copy h ref).2 nv) ref).2 =
      heapGet h ref := by
  have hne : h.length ≠ ref := Nat.ne_of_gt hlt
  have hcopy : heapGet (h ++ [heapGet h ref]) h.length = heapGet h ref :=
    heapGet_append_self (heapGet h ref) h
  have hmut : heapGet (heapSet (h ++ [heapGet h ref]) h.length nv) ref = heapGet h ref := by
    rw [heapGet_heapSet_ne nv (h ++ [heapGet h ref]) h.length ref hne]
    exact heapGet_append_lt (heapGet h ref) h ref hlt
  refine ⟨hne, hcopy, hmut, ?_⟩
  have hself := heapGet_append_self
    (heapGet (heapSet (h ++ [heapGet h ref]) h.length nv) ref)
    (heapSet (h ++ [heapGet h ref]) h.length nv)
  exact hself.trans hmut

/-- Witness for C8: a one-object heap holding the cached name list,
mutated to empty after copying. -/
theorem resource_names_returns_fresh_copy_witness :
    (resource_names_copy [[armName]] 0).2 ≠ 0 ∧
    heapGet (resource_names_copy [[armName]] 0).1 (resource_names_copy [[armName]] 0).2 =
      heapGet [[armName]] 0 ∧
    heapGet (heapSet (resource_names_copy [[armName]] 0).1
        (resource_names_copy [[armName]] 0).2 []) 0 = heapGet [[armName]] 0 ∧
    heapGet
        (resource_names_copy
          (heapSet (resource_names_copy [[armName]] 0).1
            (resource_names_copy [[armName]] 0).2 []) 0).1
        (resource_names_copy
          (heapSet (resource_names_copy [[armName]] 0).1
            (resource_names_copy [[armName]] 0).2 []) 0).2 =
      heapGet [[armName]] 0 :=
  resource_names_returns_fresh_copy [[armName]] 0 (by decide) []
